import Mathlib

/-!
Verification of the chux-datastore document-store facade, its error
wrapper and its rotating file logger, against a shallow embedding of the
Go sources (src/db/mongo.go, src/db/errors.go, src/logging/fileLogger.go).

External driver calls (mongo.NewClient, Connect, FindOne, UpdateOne,
DeleteOne, Find, cursor iteration) are modelled as oracles: each facade
operation takes an environment value describing the outcome of every
driver call it performs, and the embedding reproduces the source's
control flow around those outcomes.
-/

namespace ChuxDatastore

/-- `primitive.ObjectID`: an opaque 12-byte identifier, modelled by the
natural number its bytes denote. The zero value is the unset sentinel. -/
structure ObjectID where
  val : Nat
deriving DecidableEq, Repr

/-- `primitive.NilObjectID`: the all-zero unset sentinel. -/
def NilObjectID : ObjectID := ⟨0⟩

/-- `primitive.NewObjectID()`: draws a fresh identifier from an external
supply (timestamp plus random bytes in the driver). The driver never
yields the all-zero id, which the `+ 1` captures. -/
def NewObjectID (supply : Nat) : ObjectID := ⟨supply + 1⟩

/-- A Go `interface` value as it occurs in filters and variadic
argument lists (`bson.M` values, `queries ...interface`). -/
inductive GoValue where
  | vNull
  | vStr (s : String)
  | vInt (n : Int)
  | vOid (id : ObjectID)
deriving DecidableEq, Repr

/-- `errors.ChuxDataStoreError` as constructed throughout src/db/mongo.go:
a message, a numeric code and an optional wrapped cause (the cause is
modelled by its rendered message). -/
structure ChuxDataStoreError where
  Message : String
  Code : Nat
  Err : Option String
deriving DecidableEq, Repr

/-- `errors.NewChuxDataStoreError(message, code, err)`. -/
def NewChuxDataStoreError (message : String) (code : Nat) (err : Option String) :
    ChuxDataStoreError :=
  { Message := message, Code := code, Err := err }

/-- `db.ChuxMongoError` (src/db/errors.go): code, message and inner error
(modelled by its `%v` rendering; a nil Go error renders as `<nil>`). -/
structure ChuxMongoError where
  Code : Int
  Message : String
  InnerError : Option String
deriving DecidableEq, Repr

/-- Go `%v` rendering of an `error` value that may be nil. -/
def renderGoError : Option String → String
  | none => "<nil>"
  | some s => s

/-- `ChuxMongoError.Error()` (src/db/errors.go line 24): the
`fmt.Sprintf` of code, current message and inner error. -/
def chuxMongoErrorString (e : ChuxMongoError) : String :=
  "ChuxMongoError: Code: " ++ toString e.Code ++ ", Message: " ++ e.Message
    ++ ", InnerError: " ++ renderGoError e.InnerError

/-- `db.NewChuxMongoError(message, code, innerError)` (src/db/errors.go):
builds the struct with Code and InnerError only (Message keeps Go's zero
value `""`), then assigns `err.Message = err.Error()`. -/
def NewChuxMongoError (message : String) (code : Int) (innerError : Option String) :
    ChuxMongoError :=
  let err : ChuxMongoError := { Code := code, Message := "", InnerError := innerError }
  { err with Message := chuxMongoErrorString err }

/-- `db.MongoDB` (src/db/mongo.go lines 76-84): the facade's
configuration. `Timeout` is Go `float64`, modelled as a rational; the
driver client handle and logger are modelled separately. -/
structure MongoDB where
  CollectionName : String
  DatabaseName : String
  URI : String
  Timeout : Rat
deriving DecidableEq, Repr

/-- A struct field of a concrete document type: its `bson` tag (the raw
tag text, possibly with `,omitempty` options) and its current value. -/
structure StructField where
  bsonTag : String
  value : GoValue
deriving DecidableEq, Repr

/-- A value implementing `IMongoDocument`: identity, the collection and
database name overrides returned by `GetCollectionName`/`GetDatabaseName`
(empty string defers to the facade default), and the reflected fields. -/
structure Document where
  id : ObjectID
  collectionName : String
  databaseName : String
  fields : List StructField
deriving DecidableEq, Repr

/-- The driver client handle as far as the facade configures it:
the URI and the timeout that `Connect` applied. -/
structure Client where
  uri : String
  timeoutSeconds : Rat
deriving DecidableEq, Repr

/-- Driver-call oracle for `Connect`: whether `mongo.NewClient`
succeeds, whether the subsequent handshake (`client.Connect(ctx)`)
succeeds, and the rendered driver error used when a step fails. -/
structure ConnectEnv where
  newClientOk : Bool
  handshakeOk : Bool
  failureMsg : String
deriving DecidableEq, Repr

/-- Outcome of `MongoDB.Connect`: the new value of the package-level
`_client` variable, the returned client or error, and whether the call
went past the cache check and attempted to build a new connection. -/
structure ConnectResult where
  cache : Option Client
  ret : Except ChuxDataStoreError Client
  attempted : Bool
deriving Repr

/-- `MongoDB.Connect` (src/db/mongo.go lines 185-241). The package-level
`_client` cache is passed in and returned explicitly. When the cache is
set the cached client is returned at once; otherwise the timeout
defaults to 30 when zero, the URI defaults to `mongodb://localhost:27017`
when empty, and `mongo.NewClient` plus the handshake run. Note the Go
assigns `_client, err = mongo.NewClient(...)` before the handshake, so a
failed handshake still leaves the cache set. -/
def Connect (m : MongoDB) (cache : Option Client) (env : ConnectEnv) : ConnectResult :=
  match cache with
  | some c => { cache := some c, ret := Except.ok c, attempted := false }
  | none =>
    let timeoutDuration : Rat := if m.Timeout = 0 then 30 else m.Timeout
    let uri : String := if m.URI.length = 0 then "mongodb://localhost:27017" else m.URI
    if env.newClientOk then
      let client : Client := { uri := uri, timeoutSeconds := timeoutDuration }
      if env.handshakeOk then
        { cache := some client, ret := Except.ok client, attempted := true }
      else
        { cache := some client,
          ret := Except.error (NewChuxDataStoreError
            ("MongoDB.Connect() Did not connect to mongo client " ++ m.URI
              ++ ". Check the inner error for details") 1001 (some env.failureMsg)),
          attempted := true }
    else
      { cache := none,
        ret := Except.error (NewChuxDataStoreError
          ("MongoDB.Connect() Did not create mongo client for " ++ m.URI
            ++ ". Check the inner error for details") 1000 (some env.failureMsg)),
        attempted := true }

/-- The document's collection-name override else the facade default
(src/db/mongo.go lines 611-615). -/
def resolveCollectionName (m : MongoDB) (doc : Document) : String :=
  if doc.collectionName.length > 0 then doc.collectionName else m.CollectionName

/-- The document's database-name override else the facade default
(src/db/mongo.go lines 616-620). -/
def resolveDatabaseName (m : MongoDB) (doc : Document) : String :=
  if doc.databaseName.length > 0 then doc.databaseName else m.DatabaseName

/-- `MongoDB.getDBAndCollectionName` (src/db/mongo.go lines 602-628):
returns `(collectionName, dbName, err)`. When either resolved name is
empty it logs a warning and returns `("", "", nil)` — the error result
is nil on every path. -/
def getDBAndCollectionName (m : MongoDB) (doc : Document) :
    String × String × Option ChuxDataStoreError :=
  let collectionName := resolveCollectionName m doc
  let dbName := resolveDatabaseName m doc
  if collectionName.length = 0 ∨ dbName.length = 0 then
    ("", "", none)
  else
    (collectionName, dbName, none)

/-- A `mongo.Collection` handle as the facade sees it: just the pair of
names it was opened with. `client.Database(name).Collection(name)` in
the driver always returns a non-nil handle, for empty names too. -/
structure Collection where
  dbName : String
  collName : String
deriving DecidableEq, Repr

/-- `MongoDB.getCollection` (src/db/mongo.go lines 631-650): connects,
resolves the names, and opens the collection handle. The nil-collection
check in the source is dead code because the driver constructors never
return nil. -/
def getCollection (m : MongoDB) (cache : Option Client) (env : ConnectEnv)
    (doc : Document) : Except ChuxDataStoreError Collection :=
  match (Connect m cache env).ret with
  | Except.error e =>
      Except.error (NewChuxDataStoreError
        "MongoDB.getCollection() error occurred connecting to Mongo" 1004 (some e.Message))
  | Except.ok _ =>
      match getDBAndCollectionName m doc with
      | (_, _, some e) =>
          Except.error (NewChuxDataStoreError
            "MongoDB.getCollection() error occurred getting the collection name and database name from the IMongoDocument interface"
            1004 (some e.Message))
      | (collectionName, dbName, none) =>
          Except.ok { dbName := dbName, collName := collectionName }

/-- The characters before the first comma (character code 44). -/
def takeUntilComma : List Char → List Char
  | [] => []
  | c :: rest => if c = Char.ofNat 44 then [] else c :: takeUntilComma rest

/-- The part of a `bson` struct tag before the first comma, as computed
by `strings.Split(bsonTag, ",")[0]`. -/
def bsonTagName (tag : String) : String := String.mk (takeUntilComma tag.data)

/-- The reflection loop of `GetFieldValue`: the first struct field whose
bson tag names `field`. -/
def findFieldByTag : List StructField → String → Option GoValue
  | [], _ => none
  | f :: rest, field =>
      if bsonTagName f.bsonTag = field then some f.value
      else findFieldByTag rest field

/-- `MongoDB.GetFieldValue` (src/db/mongo.go lines 690-719): scans the
document's struct fields for one whose bson tag matches `field` and
returns its value, else the error `unknown field: <field>`. (The
`IsValid` check inside the loop cannot fail for a field obtained from
the struct type itself.) -/
def GetFieldValue (doc : Document) (field : String) : Except String GoValue :=
  match findFieldByTag doc.fields field with
  | some v => Except.ok v
  | none => Except.error ("unknown field: " ++ field)

/-- The value Upsert places in the filter for a named field: the looked
up value, or Go `nil` when the lookup failed (the error branch at
src/db/mongo.go lines 299-304 only logs; the commented-out `return`
means execution continues and `filter[field] = fieldValue` stores the
nil value). -/
def upsertFieldValue (doc : Document) (field : String) : GoValue :=
  match GetFieldValue doc field with
  | Except.ok v => v
  | Except.error _ => GoValue.vNull

/-- The field-lookup failures that Upsert's filter loop logs without
returning them. -/
def upsertLoggedErrors (doc : Document) (ff : List String) : List String :=
  ff.filterMap (fun field =>
    match GetFieldValue doc field with
    | Except.ok _ => none
    | Except.error e => some e)

/-- Upsert's filter (src/db/mongo.go lines 291-307): identity-equality
when no filter fields are given, else one entry per named field in
order. (`bson.M` is a map; the list records the insertion sequence.) -/
def buildUpsertFilter (doc : Document) (ff : List String) : List (String × GoValue) :=
  if ff.isEmpty then [("_id", GoValue.vOid doc.id)]
  else ff.map (fun field => (field, upsertFieldValue doc field))

/-- Outcome of the `FindOne` existence probe in Upsert:
found, `mongo.ErrNoDocuments`, or any other driver error. -/
inductive FindOneOutcome where
  | found
  | noDocuments
  | failure (e : String)
deriving DecidableEq, Repr

/-- Outcome of a driver `UpdateOne` call: the matched and modified
counts on success, or a driver error. -/
inductive WriteOutcome where
  | ok (matchedCount modifiedCount : Nat)
  | failure (e : String)
deriving DecidableEq, Repr

/-- Driver-call oracle for `Upsert`: the connection state and outcomes
of the existence probe and the upsert write, plus the supply feeding
`primitive.NewObjectID`. -/
structure UpsertEnv where
  connect : ConnectEnv
  cache : Option Client
  findOne : FindOneOutcome
  updateOne : WriteOutcome
  idSupply : Nat
deriving Repr

/-- Outcome of `MongoDB.Upsert`: the document after the call (SetID may
have run on it), the filter it built, the returned error, and the
field-lookup failures that were logged but not returned. -/
structure UpsertResult where
  doc : Document
  filter : List (String × GoValue)
  err : Option ChuxDataStoreError
  loggedFieldErrors : List String
deriving Repr

/-- `MongoDB.Upsert` (src/db/mongo.go lines 267-338): gets the
collection, builds the filter (field-lookup failures are only logged),
probes existence with `FindOne`, mints a fresh identity exactly when the
probe reported `ErrNoDocuments` and the document's id is the nil
sentinel, then performs the upsert write. -/
def Upsert (m : MongoDB) (env : UpsertEnv) (doc : Document) (ff : List String) :
    UpsertResult :=
  match getCollection m env.cache env.connect doc with
  | Except.error e =>
      { doc := doc, filter := [],
        err := some (NewChuxDataStoreError
          "MongoDB.Connect() Did not get mongo collection. Check the inner error for details."
          1000 (some e.Message)),
        loggedFieldErrors := [] }
  | Except.ok _ =>
      let id := doc.id
      let filter := buildUpsertFilter doc ff
      let logged := upsertLoggedErrors doc ff
      match env.findOne with
      | FindOneOutcome.failure e =>
          { doc := doc, filter := filter,
            err := some (NewChuxDataStoreError
              ("MongoDB.Upsert() Error checking if document exists: " ++ e)
              1004 (some e)),
            loggedFieldErrors := logged }
      | probe =>
          let doc2 :=
            if probe = FindOneOutcome.noDocuments ∧ id = NilObjectID then
              { doc with id := NewObjectID env.idSupply }
            else doc
          match env.updateOne with
          | WriteOutcome.failure e =>
              { doc := doc2, filter := filter,
                err := some (NewChuxDataStoreError
                  ("MongoDB.Upsert() Error upserting document: " ++ e)
                  1005 (some e)),
                loggedFieldErrors := logged }
          | WriteOutcome.ok _ _ =>
              { doc := doc2, filter := filter, err := none, loggedFieldErrors := logged }

/-- One record produced by cursor iteration: it either decodes into the
target type or fails to. -/
inductive DecodeItem where
  | ok (d : Document)
  | failure (e : String)
deriving Repr

/-- Outcome of a driver `Find` call: a cursor yielding items (with the
terminal `cursor.Err()` value), or a failure to establish the cursor. -/
inductive FindOutcome where
  | cursor (items : List DecodeItem) (cursorErr : Option String)
  | failure (e : String)
deriving Repr

/-- Driver-call oracle for `Query` and `GetAll`. -/
structure QueryEnv where
  connect : ConnectEnv
  cache : Option Client
  find : FindOutcome
deriving Repr

/-- Outcome of `MongoDB.Query`: the returned slice or error, and whether
`m.Connect()` was invoked at all. -/
structure QueryResult where
  ret : Except ChuxDataStoreError (List Document)
  connectCalled : Bool
deriving Repr

/-- Query's key/value loop (src/db/mongo.go lines 410-419): keys must be
strings, later pairs join the `bson.M` filter. The one-leftover case is
unreachable because the even-length check has already passed. -/
def buildQueryFilter : List GoValue → Except ChuxDataStoreError (List (String × GoValue))
  | [] => Except.ok []
  | GoValue.vStr key :: v :: rest =>
      (buildQueryFilter rest).map (fun f => (key, v) :: f)
  | _ :: _ :: _ =>
      Except.error (NewChuxDataStoreError
        "Query() expects keys to be of type string." 1006 none)
  | [_] =>
      Except.error (NewChuxDataStoreError
        "Query() expects keys to be of type string." 1006 none)

/-- The cursor loop shared by Query and GetAll: decode every item,
failing with the operation's decode-error message and code at the first
item that does not decode. -/
def decodeAll (msg : String) (code : Nat) :
    List DecodeItem → Except ChuxDataStoreError (List Document)
  | [] => Except.ok []
  | DecodeItem.ok d :: rest => (decodeAll msg code rest).map (fun ds => d :: ds)
  | DecodeItem.failure e :: _ => Except.error (NewChuxDataStoreError msg code (some e))

/-- `MongoDB.Query` (src/db/mongo.go lines 384-465): rejects odd-length
argument lists before connecting, connects, builds the filter, runs
`Find` — returning the empty slice with a nil error when `Find` fails to
establish a cursor — decodes every match, checks `cursor.Err()`, and
returns the empty slice with a nil error when zero documents matched. -/
def Query (m : MongoDB) (env : QueryEnv) (doc : Document) (queries : List GoValue) :
    QueryResult :=
  if queries.length % 2 ≠ 0 then
    { ret := Except.error (NewChuxDataStoreError
        "Query() requires an even number of arguments for key-value pairs." 1006 none),
      connectCalled := false }
  else
    match (Connect m env.cache env.connect).ret with
    | Except.error e =>
        { ret := Except.error (NewChuxDataStoreError
            "Query() error occurred connecting to Mongo" 1006 (some e.Message)),
          connectCalled := true }
    | Except.ok _ =>
        match buildQueryFilter queries with
        | Except.error e => { ret := Except.error e, connectCalled := true }
        | Except.ok _ =>
            match env.find with
            | FindOutcome.failure _ =>
                { ret := Except.ok [], connectCalled := true }
            | FindOutcome.cursor items cursorErr =>
                match decodeAll "Query() Failed to decode document. Check the inner error." 1006 items with
                | Except.error e => { ret := Except.error e, connectCalled := true }
                | Except.ok docs =>
                    match cursorErr with
                    | some e =>
                        { ret := Except.error (NewChuxDataStoreError
                            "Query() Cursor error. Check the inner error." 1006 (some e)),
                          connectCalled := true }
                    | none => { ret := Except.ok docs, connectCalled := true }

/-- `MongoDB.GetAll` (src/db/mongo.go lines 478-518): connects, runs
`Find` with the empty filter — unlike Query it surfaces a failure to
establish the cursor as an error — decodes every match, checks
`cursor.Err()`, and returns the (possibly empty) slice with a nil
error. -/
def GetAll (m : MongoDB) (env : QueryEnv) (doc : Document) :
    Except ChuxDataStoreError (List Document) :=
  match (Connect m env.cache env.connect).ret with
  | Except.error e =>
      Except.error (NewChuxDataStoreError
        "MongoDB.GetAll() error occurred connecting to Mongo" 1004 (some e.Message))
  | Except.ok _ =>
      match env.find with
      | FindOutcome.failure e =>
          Except.error (NewChuxDataStoreError
            "MongoDB.GetAll() Failed to find documents. Check the inner error." 1004 (some e))
      | FindOutcome.cursor items cursorErr =>
          match decodeAll "MongoDB.GetAll() Failed to decode document. Check the inner error." 1004 items with
          | Except.error e => Except.error e
          | Except.ok docs =>
              match cursorErr with
              | some e =>
                  Except.error (NewChuxDataStoreError
                    "MongoDB.GetAll() Cursor error. Check the inner error." 1004 (some e))
              | none => Except.ok docs

/-- Hex-digit test used by `primitive.ObjectIDFromHex` (the driver
decodes with `encoding/hex`, which accepts both cases). -/
def isHexDigit (c : Char) : Bool :=
  c.isDigit || (decide (Char.ofNat 97 ≤ c) && decide (c ≤ Char.ofNat 102))
    || (decide (Char.ofNat 65 ≤ c) && decide (c ≤ Char.ofNat 70))

/-- Numeric value of one hex digit. -/
def hexDigitVal (c : Char) : Nat :=
  if c.isDigit then c.toNat - 48
  else if decide (Char.ofNat 97 ≤ c) then c.toNat - 87
  else c.toNat - 55

/-- The natural number denoted by a hex string. -/
def hexToNat (s : String) : Nat :=
  s.data.foldl (fun acc c => acc * 16 + hexDigitVal c) 0

/-- `primitive.ObjectIDFromHex`: a valid id is exactly 24 hex digits. -/
def ObjectIDFromHex (s : String) : Except String ObjectID :=
  if (s.data.length == 24) && s.data.all isHexDigit then Except.ok ⟨hexToNat s⟩
  else Except.error "the provided hex string is not a valid ObjectID"

/-- Outcome of a driver `DeleteOne` call. -/
inductive DeleteOutcome where
  | ok (deletedCount : Nat)
  | failure (e : String)
deriving DecidableEq, Repr

/-- Driver-call oracle for `Update`. -/
structure UpdateEnv where
  connect : ConnectEnv
  cache : Option Client
  updateOne : WriteOutcome
deriving Repr

/-- Outcome of `MongoDB.Update`: the returned error and the modified
count that reaches only the `logging.Info` diagnostic on success. -/
structure UpdateResult where
  err : Option ChuxDataStoreError
  loggedModifiedCount : Option Nat
deriving Repr

/-- `MongoDB.Update` (src/db/mongo.go lines 532-560): connects, parses
the id, runs `UpdateOne` with a full set-update of the document's fields,
logs the modified count, and returns nil whatever that count was. -/
def Update (m : MongoDB) (env : UpdateEnv) (doc : Document) (id : String) :
    UpdateResult :=
  match (Connect m env.cache env.connect).ret with
  | Except.error e =>
      { err := some (NewChuxDataStoreError
          "MongoDB.Update() error occurred connecting to Mongo" 1004 (some e.Message)),
        loggedModifiedCount := none }
  | Except.ok _ =>
      match ObjectIDFromHex id with
      | Except.error e =>
          { err := some (NewChuxDataStoreError
              "MongoDB.Update() Failed to Get ObjectIDFromHex. Check the inner error."
              1004 (some e)),
            loggedModifiedCount := none }
      | Except.ok _ =>
          match env.updateOne with
          | WriteOutcome.failure e =>
              { err := some (NewChuxDataStoreError
                  "MongoDB.Update() Failed to Update. Check the inner error." 1004 (some e)),
                loggedModifiedCount := none }
          | WriteOutcome.ok _ modified =>
              { err := none, loggedModifiedCount := some modified }

/-- Driver-call oracle for `Delete`. -/
structure DeleteEnv where
  connect : ConnectEnv
  cache : Option Client
  deleteOne : DeleteOutcome
deriving Repr

/-- Outcome of `MongoDB.Delete`: the returned error and the deleted
count that reaches only the `fmt.Println` diagnostic on success. -/
structure DeleteResult where
  err : Option ChuxDataStoreError
  printedDeletedCount : Option Nat
deriving Repr

/-- `MongoDB.Delete` (src/db/mongo.go lines 574-598): resolves the
collection via `getCollection`, parses the id, runs `DeleteOne`, prints
the deleted count, and returns nil whatever that count was. -/
def Delete (m : MongoDB) (env : DeleteEnv) (doc : Document) (id : String) :
    DeleteResult :=
  match getCollection m env.cache env.connect doc with
  | Except.error e =>
      { err := some (NewChuxDataStoreError
          "MongoDB.Delete() error occurred connecting to Mongo" 1004 (some e.Message)),
        printedDeletedCount := none }
  | Except.ok _ =>
      match ObjectIDFromHex id with
      | Except.error e =>
          { err := some (NewChuxDataStoreError
              "MongoDB.Delete() Failed to Get ObjectIDFromHex. Check the inner error."
              1005 (some e)),
            printedDeletedCount := none }
      | Except.ok _ =>
          match env.deleteOne with
          | DeleteOutcome.failure e =>
              { err := some (NewChuxDataStoreError
                  "MongoDB.Delete() Failed to Delete. Check the inner error." 1005 (some e)),
                printedDeletedCount := none }
          | DeleteOutcome.ok n =>
              { err := none, printedDeletedCount := some n }

/-- Outcome of the backend insert performed by Create: success with an
optionally generated identity, or a write failure. -/
inductive InsertOutcome where
  | ok (generatedId : Option ObjectID)
  | failure (e : String)
deriving Repr

/-- Modelled from the spec: `Create` is declared in the `IMongoDB`
interface (src/db/mongo.go lines 65-73) but its implementation is not
among the source files. Spec section 4.1: it "resolves the target
collection (document override else facade default; fails with
ConfigurationError if both are empty), inserts the document, and — if
the backend assigns a generated identity — writes that identity back
into the passed document's Identity field. Fails with ConfigurationError
when the collection/database cannot be resolved, WriteError when the
insert fails." Returns the document after the call and the error. -/
def Create (m : MongoDB) (doc : Document) (insert : InsertOutcome) :
    Document × Option ChuxDataStoreError :=
  let collectionName := resolveCollectionName m doc
  let dbName := resolveDatabaseName m doc
  if collectionName.length = 0 ∨ dbName.length = 0 then
    (doc, some (NewChuxDataStoreError
      "Create() could not resolve the collection or database name" 1000 none))
  else
    match insert with
    | InsertOutcome.failure e =>
        (doc, some (NewChuxDataStoreError
          "Create() failed to insert the document. Check the inner error." 1000 (some e)))
    | InsertOutcome.ok none => (doc, none)
    | InsertOutcome.ok (some gid) => ({ doc with id := gid }, none)

/-- `logging.FileLogger` (src/logging/fileLogger.go lines 12-21): the
active file is represented by its path. `logFilePfx` embeds the Go
field named after the log-file name stem that `New` stores. -/
structure FileLogger where
  fileName : String
  maxFileSize : Nat
  logDirectory : String
  logFilePfx : String
deriving DecidableEq, Repr

/-- The file name built by `createLogFile` (src/logging/fileLogger.go
lines 70-76): `filepath.Join(logDirectory, fmt.Sprintf("%s-%s.log", logFilePrefix, timestamp))`
where the local variable shadowing the configured stem is hardcoded to
`chux-datastore-log` and `timestamp` is the current date. -/
def createLogFileName (logDirectory : String) (today : String) : String :=
  logDirectory ++ "/" ++ "chux-datastore-log" ++ "-" ++ today ++ ".log"

/-- Oracle for `rotate`: whether `zipFile` succeeds and whether
`createLogFile` succeeds. -/
structure RotateEnv where
  zipOk : Bool
  createOk : Bool
deriving DecidableEq, Repr

/-- Effects of one `rotate` call. -/
structure RotateResult where
  closedOldFile : Bool
  zipFilePath : String
  removedOriginal : Bool
  newFileName : Option String
deriving DecidableEq, Repr

/-- `FileLogger.rotate` (src/logging/fileLogger.go lines 90-110):
closes the current file, zips it to `<old path>.zip`, removes the
original exactly when zipping succeeded (a zip failure is printed to
process output and the original kept), then opens a fresh file named by
`createLogFile` for the current date. -/
def rotate (fl : FileLogger) (env : RotateEnv) (today : String) : RotateResult :=
  let oldFilePath := fl.fileName
  let zipFilePath := oldFilePath ++ ".zip"
  let removed := env.zipOk
  if env.createOk then
    { closedOldFile := true, zipFilePath := zipFilePath, removedOriginal := removed,
      newFileName := some (createLogFileName fl.logDirectory today) }
  else
    { closedOldFile := true, zipFilePath := zipFilePath, removedOriginal := removed,
      newFileName := none }

/-! Concrete sample values used by witnesses and counterexamples. -/

/-- A configured facade. -/
def mSample : MongoDB :=
  { CollectionName := "products", DatabaseName := "chux",
    URI := "mongodb://localhost:27017", Timeout := 30 }

/-- A facade whose every configuration field is the zero value. -/
def mUnset : MongoDB :=
  { CollectionName := "", DatabaseName := "", URI := "", Timeout := 0 }

/-- A connect oracle where both driver steps succeed. -/
def envConnOk : ConnectEnv :=
  { newClientOk := true, handshakeOk := true, failureMsg := "dial tcp: connection refused" }

/-- A cached client as the first successful default connect leaves it. -/
def clientSample : Client :=
  { uri := "mongodb://localhost:27017", timeoutSeconds := 30 }

/-- A document with an unset identity, no name overrides and one tagged
field. -/
def docUnsetId : Document :=
  { id := NilObjectID, collectionName := "items", databaseName := "chux",
    fields := [{ bsonTag := "firstName,omitempty", value := GoValue.vStr "John" }] }

/-- A document with a set identity. -/
def docJohn : Document :=
  { id := ⟨7⟩, collectionName := "products", databaseName := "chux",
    fields := [{ bsonTag := "firstName,omitempty", value := GoValue.vStr "John" }] }

/-- A document with no name overrides at all. -/
def docNoNames : Document :=
  { id := NilObjectID, collectionName := "", databaseName := "", fields := [] }

/-- An upsert oracle: warm cache, probe finds the document, write ok. -/
def envUpsertFound : UpsertEnv :=
  { connect := envConnOk, cache := some clientSample,
    findOne := FindOneOutcome.found, updateOne := WriteOutcome.ok 1 1, idSupply := 41 }

/-- An upsert oracle: warm cache, probe reports `ErrNoDocuments`,
write ok. -/
def envUpsertAbsent : UpsertEnv :=
  { connect := envConnOk, cache := some clientSample,
    findOne := FindOneOutcome.noDocuments, updateOne := WriteOutcome.ok 0 0, idSupply := 41 }

/-- A query oracle whose `Find` would fail to establish a cursor. -/
def envFindFails : QueryEnv :=
  { connect := envConnOk, cache := some clientSample,
    find := FindOutcome.failure "server selection error" }

/-- A query oracle whose cursor yields no documents and no error. -/
def envFindEmpty : QueryEnv :=
  { connect := envConnOk, cache := some clientSample,
    find := FindOutcome.cursor [] none }

/-- An update oracle: warm cache, write succeeds, zero matched and
zero modified. -/
def envUpdateZero : UpdateEnv :=
  { connect := envConnOk, cache := some clientSample,
    updateOne := WriteOutcome.ok 0 0 }

/-- A delete oracle: warm cache, delete succeeds, zero deleted. -/
def envDeleteZero : DeleteEnv :=
  { connect := envConnOk, cache := some clientSample,
    deleteOne := DeleteOutcome.ok 0 }

/-- A rotating file logger configured with the stem `myapp`. -/
def flMyApp : FileLogger :=
  { fileName := "logs/chux-datastore-log-2023-04-30.log", maxFileSize := 1024,
    logDirectory := "logs", logFilePfx := "myapp" }

/-! Helper lemmas shared by the claim theorems. -/

/-- `getDBAndCollectionName` returns a nil error on every path. -/
theorem getDBAndCollectionName_err_none (m : MongoDB) (doc : Document) :
    (getDBAndCollectionName m doc).2.2 = none := by
  unfold getDBAndCollectionName
  by_cases h : (resolveCollectionName m doc).length = 0 ∨ (resolveDatabaseName m doc).length = 0
  · simp [h]
  · simp [h]

/-- With a warm client cache, `getCollection` always succeeds. -/
theorem getCollection_cached_isOk (m : MongoDB) (c : Client) (ce : ConnectEnv)
    (doc : Document) :
    ∃ col, getCollection m (some c) ce doc = Except.ok col := by
  have h := getDBAndCollectionName_err_none m doc
  unfold getCollection Connect
  rcases hg : getDBAndCollectionName m doc with ⟨cn, dn, en⟩
  rw [hg] at h
  simp only at h
  subst h
  exact ⟨_, rfl⟩

/-- With the collection acquired, Upsert records the filter it built. -/
theorem upsert_filter_eq (m : MongoDB) (env : UpsertEnv) (doc : Document)
    (ff : List String) (c : Collection)
    (hc : getCollection m env.cache env.connect doc = Except.ok c) :
    (Upsert m env doc ff).filter = buildUpsertFilter doc ff ∧
    (Upsert m env doc ff).loggedFieldErrors = upsertLoggedErrors doc ff := by
  unfold Upsert
  rw [hc]
  cases env.findOne <;> cases env.updateOne <;> simp

/-! Theorems for the claims. -/

/-- C10: for every message string, code, and inner error,
`NewChuxMongoError` discards the message argument it was given: the
result is independent of the message, and the constructed `Message`
field is the formatted string produced while `Message` was still empty,
so the caller-supplied message never appears in the resulting error. -/
theorem newChuxMongoError_discards_message (m1 m2 : String) (code : Int)
    (inner : Option String) :
    NewChuxMongoError m1 code inner = NewChuxMongoError m2 code inner ∧
    (NewChuxMongoError m1 code inner).Message
      = chuxMongoErrorString { Code := code, Message := "", InnerError := inner } := by
  exact ⟨rfl, rfl⟩

/-- C1: for every document passed to Upsert with the collection
acquired: if the existence probe reports the document absent
(`ErrNoDocuments`) and the document's identity equals the unset nil
sentinel, Upsert mints a new non-zero identity and sets it on the
document before the write; if the document's identity is already
non-zero, Upsert never changes it. -/
theorem upsert_mints_identity_only_when_absent_and_unset (m : MongoDB)
    (env : UpsertEnv) (doc : Document) (ff : List String) (c : Collection)
    (hc : getCollection m env.cache env.connect doc = Except.ok c) :
    (env.findOne = FindOneOutcome.noDocuments → doc.id = NilObjectID →
      (Upsert m env doc ff).doc.id = NewObjectID env.idSupply ∧
      (Upsert m env doc ff).doc.id ≠ NilObjectID) ∧
    (doc.id ≠ NilObjectID → (Upsert m env doc ff).doc.id = doc.id) := by
  constructor
  · intro hprobe hid
    unfold Upsert
    rw [hc, hprobe]
    have hnz : NewObjectID env.idSupply ≠ NilObjectID := by
      simp [NewObjectID, NilObjectID]
    cases env.updateOne <;> simp [hid, hnz]
  · intro hid
    unfold Upsert
    rw [hc]
    cases env.findOne <;> cases env.updateOne <;> simp [hid]

/-- Witness for C1 at a concrete input: an absent document with an
unset identity gets the freshly minted non-zero identity. -/
theorem upsert_mints_identity_only_when_absent_and_unset_witness :
    (Upsert mSample envUpsertAbsent docUnsetId []).doc.id = NewObjectID 41 ∧
    (Upsert mSample envUpsertAbsent docUnsetId []).doc.id ≠ NilObjectID :=
  (upsert_mints_identity_only_when_absent_and_unset mSample envUpsertAbsent docUnsetId []
    { dbName := "chux", collName := "items" } rfl).1 rfl rfl

/-- C9: Connect is create-once/reuse-forever: with an empty cache and
both driver steps succeeding it creates the shared client, substituting
the default URI `mongodb://localhost:27017` when the configured URI is
empty and a 30-second timeout when the configured timeout is zero, and
caches it; with any cached client, Connect (from any facade instance)
returns the cached client unchanged without attempting a connection. -/
theorem connect_create_once_reuse (m m2 : MongoDB) (env env2 : ConnectEnv) (c : Client)
    (h1 : env.newClientOk = true) (h2 : env.handshakeOk = true) :
    ((Connect m none env).ret = Except.ok
        { uri := if m.URI.length = 0 then "mongodb://localhost:27017" else m.URI,
          timeoutSeconds := if m.Timeout = 0 then 30 else m.Timeout } ∧
     (Connect m none env).cache = some
        { uri := if m.URI.length = 0 then "mongodb://localhost:27017" else m.URI,
          timeoutSeconds := if m.Timeout = 0 then 30 else m.Timeout } ∧
     (Connect m none env).attempted = true) ∧
    ((Connect m2 (some c) env2).ret = Except.ok c ∧
     (Connect m2 (some c) env2).cache = some c ∧
     (Connect m2 (some c) env2).attempted = false) := by
  refine ⟨?_, rfl, rfl, rfl⟩
  unfold Connect
  simp [h1, h2]

/-- Witness for C9 at a concrete input: the all-empty configuration
connects with the default URI and timeout, and a second call on the
resulting cache returns it unchanged without a connection attempt. -/
theorem connect_create_once_reuse_witness :
    ((Connect mUnset none envConnOk).ret = Except.ok
        { uri := if mUnset.URI.length = 0 then "mongodb://localhost:27017" else mUnset.URI,
          timeoutSeconds := if mUnset.Timeout = 0 then 30 else mUnset.Timeout } ∧
     (Connect mUnset none envConnOk).cache = some
        { uri := if mUnset.URI.length = 0 then "mongodb://localhost:27017" else mUnset.URI,
          timeoutSeconds := if mUnset.Timeout = 0 then 30 else mUnset.Timeout } ∧
     (Connect mUnset none envConnOk).attempted = true) ∧
    ((Connect mUnset (some clientSample) envConnOk).ret = Except.ok clientSample ∧
     (Connect mUnset (some clientSample) envConnOk).cache = some clientSample ∧
     (Connect mUnset (some clientSample) envConnOk).attempted = false) :=
  connect_create_once_reuse mUnset mUnset envConnOk envConnOk clientSample rfl rfl

/-- C6: for every odd-length argument list, Query fails with the
even-length validation error and never invokes Connect, so no
connection is established for odd-length input. -/
theorem query_odd_args_fails_before_connect (m : MongoDB) (env : QueryEnv)
    (doc : Document) (qs : List GoValue) (h : qs.length % 2 = 1) :
    (Query m env doc qs).ret = Except.error (NewChuxDataStoreError
        "Query() requires an even number of arguments for key-value pairs." 1006 none) ∧
    (Query m env doc qs).connectCalled = false := by
  have hne : qs.length % 2 ≠ 0 := by omega
  unfold Query
  simp [hne]

/-- Witness for C6 at a concrete input: a single-argument call. -/
theorem query_odd_args_fails_before_connect_witness :
    (Query mSample envFindFails docJohn [GoValue.vStr "firstName"]).ret
      = Except.error (NewChuxDataStoreError
          "Query() requires an even number of arguments for key-value pairs." 1006 none) ∧
    (Query mSample envFindFails docJohn [GoValue.vStr "firstName"]).connectCalled = false :=
  query_odd_args_fails_before_connect mSample envFindFails docJohn
    [GoValue.vStr "firstName"] rfl

/-- C7: for every well-formed identity string, when the driver write
succeeds with zero matched/modified (zero deleted) documents, Update and
Delete return a nil error; the zero count reaches only the logged (or
printed) diagnostics, never the error return. -/
theorem update_delete_zero_match_success (m : MongoDB) (envU : UpdateEnv)
    (envD : DeleteEnv) (cU cD : Client) (doc : Document) (id : String)
    (oid : ObjectID) (matched : Nat)
    (hcu : envU.cache = some cU) (hcd : envD.cache = some cD)
    (hwu : envU.updateOne = WriteOutcome.ok matched 0)
    (hwd : envD.deleteOne = DeleteOutcome.ok 0)
    (hid : ObjectIDFromHex id = Except.ok oid) :
    (Update m envU doc id).err = none ∧
    (Update m envU doc id).loggedModifiedCount = some 0 ∧
    (Delete m envD doc id).err = none ∧
    (Delete m envD doc id).printedDeletedCount = some 0 := by
  obtain ⟨col, hcol⟩ := getCollection_cached_isOk m cD envD.connect doc
  unfold Update Delete
  rw [hcu, hcd, hcol]
  simp [Connect, hid, hwu, hwd]

/-- Witness for C7 at a concrete input: the sample 24-hex-digit id. -/
theorem update_delete_zero_match_success_witness :
    (Update mSample envUpdateZero docJohn "5e9b9b9b9b9b9b9b9b9b9b9b").err = none ∧
    (Update mSample envUpdateZero docJohn "5e9b9b9b9b9b9b9b9b9b9b9b").loggedModifiedCount
      = some 0 ∧
    (Delete mSample envDeleteZero docJohn "5e9b9b9b9b9b9b9b9b9b9b9b").err = none ∧
    (Delete mSample envDeleteZero docJohn "5e9b9b9b9b9b9b9b9b9b9b9b").printedDeletedCount
      = some 0 :=
  update_delete_zero_match_success mSample envUpdateZero envDeleteZero clientSample
    clientSample docJohn "5e9b9b9b9b9b9b9b9b9b9b9b"
    ⟨hexToNat "5e9b9b9b9b9b9b9b9b9b9b9b"⟩ 0 rfl rfl rfl rfl (by rfl)

/-- C2: with a warm connection and a well-formed argument list, Query
returns the empty slice with a nil error both when `Find` fails to
establish a cursor and when zero documents match; GetAll returns the
empty slice with a nil error on zero matches, but surfaces a `Find`
failure as an error — the one difference behind which Query callers
cannot distinguish no-results from find-could-not-start. -/
theorem query_empty_collapse_vs_getall (m : MongoDB) (doc : Document) (c : Client)
    (ce : ConnectEnv) (qs : List GoValue) (f : List (String × GoValue)) (e : String)
    (hlen : qs.length % 2 = 0) (hf : buildQueryFilter qs = Except.ok f) :
    (Query m { connect := ce, cache := some c, find := FindOutcome.failure e } doc qs).ret
      = Except.ok [] ∧
    (Query m { connect := ce, cache := some c, find := FindOutcome.cursor [] none } doc qs).ret
      = Except.ok [] ∧
    GetAll m { connect := ce, cache := some c, find := FindOutcome.cursor [] none } doc
      = Except.ok [] ∧
    GetAll m { connect := ce, cache := some c, find := FindOutcome.failure e } doc
      = Except.error (NewChuxDataStoreError
          "MongoDB.GetAll() Failed to find documents. Check the inner error." 1004 (some e)) := by
  have hne : ¬ qs.length % 2 ≠ 0 := by omega
  unfold Query GetAll
  simp [Connect, hne, hf, decodeAll]

/-- Witness for C2 at a concrete input: the two-argument filter
`firstName = John` against a failing find and an empty cursor. -/
theorem query_empty_collapse_vs_getall_witness :
    (Query mSample envFindFails docJohn [GoValue.vStr "firstName", GoValue.vStr "John"]).ret
      = Except.ok [] ∧
    (Query mSample envFindEmpty docJohn [GoValue.vStr "firstName", GoValue.vStr "John"]).ret
      = Except.ok [] ∧
    GetAll mSample envFindEmpty docJohn = Except.ok [] ∧
    GetAll mSample envFindFails docJohn
      = Except.error (NewChuxDataStoreError
          "MongoDB.GetAll() Failed to find documents. Check the inner error." 1004
          (some "server selection error")) :=
  query_empty_collapse_vs_getall mSample docJohn clientSample envConnOk
    [GoValue.vStr "firstName", GoValue.vStr "John"]
    [("firstName", GoValue.vStr "John")] "server selection error" rfl rfl

/-- C3 counterexample: with every collection/database name empty, name
resolution returns a nil error, `getCollection` succeeds with an
empty-named handle, and Upsert proceeds to a successful write — no
ConfigurationError is produced. -/
theorem empty_names_no_configuration_error :
    getDBAndCollectionName mUnset docNoNames = ("", "", none) ∧
    getCollection mUnset (some clientSample) envConnOk docNoNames
      = Except.ok { dbName := "", collName := "" } ∧
    (Upsert mUnset envUpsertFound docNoNames []).err = none := by
  exact ⟨rfl, rfl, rfl⟩

/-- C3 amended: when both the document's name overrides and the
facade's defaults are empty, `getDBAndCollectionName` only logs a
warning and returns empty names with a nil error; `getCollection`
succeeds with an empty-named handle and the operations proceed with
empty names rather than failing with a ConfigurationError. -/
theorem empty_names_resolution_nil_error (m : MongoDB) (doc : Document) (c : Client)
    (ce : ConnectEnv) (env : UpsertEnv) (a b : Nat)
    (h1 : doc.collectionName = "") (h2 : doc.databaseName = "")
    (h3 : m.CollectionName = "") (h4 : m.DatabaseName = "")
    (hcache : env.cache = some c)
    (hprobe : env.findOne = FindOneOutcome.found)
    (hwrite : env.updateOne = WriteOutcome.ok a b) :
    getDBAndCollectionName m doc = ("", "", none) ∧
    getCollection m (some c) ce doc = Except.ok { dbName := "", collName := "" } ∧
    (Upsert m env doc []).err = none := by
  have hres : getDBAndCollectionName m doc = ("", "", none) := by
    unfold getDBAndCollectionName resolveCollectionName resolveDatabaseName
    simp [h1, h2, h3, h4]
  have hcol : ∀ c2 ce2, getCollection m (some c2) ce2 doc
      = Except.ok { dbName := "", collName := "" } := by
    intro c2 ce2
    unfold getCollection
    simp [Connect, hres]
  refine ⟨hres, hcol c ce, ?_⟩
  unfold Upsert
  rw [hcache, hcol c env.connect, hprobe, hwrite]

/-- Witness for C3 amended at a concrete input: the all-empty facade
and document. -/
theorem empty_names_resolution_nil_error_witness :
    getDBAndCollectionName mUnset docNoNames = ("", "", none) ∧
    getCollection mUnset (some clientSample) envConnOk docNoNames
      = Except.ok { dbName := "", collName := "" } ∧
    (Upsert mUnset envUpsertFound docNoNames []).err = none :=
  empty_names_resolution_nil_error mUnset docNoNames clientSample envConnOk
    envUpsertFound 1 1 rfl rfl rfl rfl rfl rfl rfl

/-- C4 (Create modelled from the spec): Create resolves the target
collection (override else default), and on a successful insert writes a
backend-generated identity back into the passed document's Identity
field, returning no error; without a generated identity the document is
returned unchanged. -/
theorem create_resolves_inserts_writes_back_identity (m : MongoDB) (doc : Document)
    (gid : ObjectID)
    (h1 : (resolveCollectionName m doc).length ≠ 0)
    (h2 : (resolveDatabaseName m doc).length ≠ 0) :
    (Create m doc (InsertOutcome.ok (some gid))).1.id = gid ∧
    (Create m doc (InsertOutcome.ok (some gid))).2 = none ∧
    Create m doc (InsertOutcome.ok none) = (doc, none) := by
  unfold Create
  simp [h1, h2]

/-- Witness for C4 at a concrete input: the sample document receives
the generated identity 42. -/
theorem create_resolves_inserts_writes_back_identity_witness :
    (Create mSample docUnsetId (InsertOutcome.ok (some ⟨42⟩))).1.id = (⟨42⟩ : ObjectID) ∧
    (Create mSample docUnsetId (InsertOutcome.ok (some ⟨42⟩))).2 = none ∧
    Create mSample docUnsetId (InsertOutcome.ok none) = (docUnsetId, none) :=
  create_resolves_inserts_writes_back_identity mSample docUnsetId ⟨42⟩
    (by decide) (by decide)

/-- C5 counterexample: a failed tag-driven field lookup during Upsert's
filter construction is not surfaced: the lookup fails, yet Upsert
returns a nil error, files the field under a nil value, and only logs
the failure. -/
theorem upsert_swallows_field_lookup_failure :
    GetFieldValue docJohn "bogus" = Except.error "unknown field: bogus" ∧
    (Upsert mSample envUpsertFound docJohn ["bogus"]).err = none ∧
    (Upsert mSample envUpsertFound docJohn ["bogus"]).filter = [("bogus", GoValue.vNull)] ∧
    (Upsert mSample envUpsertFound docJohn ["bogus"]).loggedFieldErrors
      = ["unknown field: bogus"] := by
  exact ⟨rfl, rfl, rfl, rfl⟩

/-- C5 amended: Upsert surfaces collection-acquisition, existence-probe
and upsert-write failures in the uniform error type, and GetFieldValue
returns its unknown-field failure to its own caller; but a failed
tag-driven field lookup during Upsert's filter construction is only
logged: the field enters the filter with a nil value and Upsert can
still return success. -/
theorem upsert_error_surfacing_amended (m : MongoDB) (env : UpsertEnv) (doc : Document)
    (ff : List String) (field efv e : String) (c : Collection) (a b : Nat)
    (hc : getCollection m env.cache env.connect doc = Except.ok c) :
    (field ∈ ff → GetFieldValue doc field = Except.error efv →
      (field, GoValue.vNull) ∈ (Upsert m env doc ff).filter ∧
      efv ∈ (Upsert m env doc ff).loggedFieldErrors) ∧
    (env.findOne = FindOneOutcome.found → env.updateOne = WriteOutcome.ok a b →
      (Upsert m env doc ff).err = none) ∧
    (env.findOne = FindOneOutcome.failure e →
      (Upsert m env doc ff).err = some (NewChuxDataStoreError
        ("MongoDB.Upsert() Error checking if document exists: " ++ e) 1004 (some e))) ∧
    (env.findOne = FindOneOutcome.found → env.updateOne = WriteOutcome.failure e →
      (Upsert m env doc ff).err = some (NewChuxDataStoreError
        ("MongoDB.Upsert() Error upserting document: " ++ e) 1005 (some e))) ∧
    (findFieldByTag doc.fields field = none →
      GetFieldValue doc field = Except.error ("unknown field: " ++ field)) := by
  have hfl := upsert_filter_eq m env doc ff c hc
  refine ⟨?_, ?_, ?_, ?_, ?_⟩
  · intro hmem hfv
    have hval : upsertFieldValue doc field = GoValue.vNull := by
      unfold upsertFieldValue
      rw [hfv]
    constructor
    · rw [hfl.1]
      unfold buildUpsertFilter
      cases ff with
      | nil => cases hmem
      | cons x xs =>
          simpa [hval] using
            List.mem_map_of_mem (fun g => (g, upsertFieldValue doc g)) hmem
    · rw [hfl.2]
      unfold upsertLoggedErrors
      refine List.mem_filterMap.mpr ⟨field, hmem, ?_⟩
      rw [hfv]
  · intro hprobe hwrite
    unfold Upsert
    rw [hc, hprobe, hwrite]
  · intro hprobe
    unfold Upsert
    rw [hc, hprobe]
  · intro hprobe hwrite
    unfold Upsert
    rw [hc, hprobe, hwrite]
  · intro hfind
    unfold GetFieldValue
    rw [hfind]

/-- Witness for C5 amended at a concrete input: the field `bogus` on
the sample document inside a successful Upsert. -/
theorem upsert_error_surfacing_amended_witness :
    ("bogus", GoValue.vNull) ∈ (Upsert mSample envUpsertFound docJohn ["bogus"]).filter ∧
    "unknown field: bogus" ∈ (Upsert mSample envUpsertFound docJohn ["bogus"]).loggedFieldErrors ∧
    (Upsert mSample envUpsertFound docJohn ["bogus"]).err = none :=
  have h := upsert_error_surfacing_amended mSample envUpsertFound docJohn ["bogus"]
    "bogus" "unknown field: bogus" "e" { dbName := "chux", collName := "products" } 1 1 rfl
  ⟨(h.1 (by decide) rfl).1, (h.1 (by decide) rfl).2, h.2.1 rfl rfl⟩

/-- C8 (code bug): rotation closes the current file, zips it to
`<old path>.zip`, removes the original exactly when zipping succeeded,
and opens a fresh dated file — but the fresh file's name uses the
hardcoded stem `chux-datastore-log`, not the logger's configured
`myapp` stem, contradicting `createLogFile`'s own doc comment. -/
theorem rotate_hardcodes_file_stem :
    rotate flMyApp { zipOk := true, createOk := true } "2023-05-01"
      = { closedOldFile := true,
          zipFilePath := "logs/chux-datastore-log-2023-04-30.log.zip",
          removedOriginal := true,
          newFileName := some "logs/chux-datastore-log-2023-05-01.log" } ∧
    (rotate flMyApp { zipOk := false, createOk := true } "2023-05-01").removedOriginal
      = false ∧
    (rotate flMyApp { zipOk := true, createOk := true } "2023-05-01").newFileName
      ≠ some ("logs/" ++ flMyApp.logFilePfx ++ "-2023-05-01.log") := by
  refine ⟨rfl, rfl, ?_⟩
  decide

end ChuxDatastore
